import Mathlib

/-!
Verification development for the Amazon scraper service (`src/main.py`).

The network transport and the HTML parser are external collaborators, so a
fetched page is modelled as data: its HTTP status, its raw body text, and the
texts of the elements the code selects from it.  The two fetchers
(`scrape_product_data`, `scrape_negative_reviews`) are translated to pure
functions of those fetch outcomes, and the orchestrator's fan-in
(`process_asins`, lines 174-197 of the source) to a `filterMap` over the
input identifiers paired positionally with their task outcomes.
-/

/-- Accumulator pass for whitespace splitting: `acc` holds the reversed
characters of the token being read. -/
def splitToksAux : List Char → List Char → List (List Char)
  | [], acc => if acc.isEmpty then [] else [acc.reverse]
  | c :: cs, acc =>
    if c.isWhitespace then
      if acc.isEmpty then splitToksAux cs [] else acc.reverse :: splitToksAux cs []
    else splitToksAux cs (c :: acc)

/-- Model of Python `str.split()` with no arguments: split on runs of
whitespace, dropping empty pieces. -/
def pySplit (s : String) : List String :=
  (splitToksAux s.data []).map fun l => String.mk l

/-- Value of a list of decimal digit characters read as a base-10 numeral. -/
def digitsVal (l : List Char) : Nat :=
  l.foldl (fun n c => n * 10 + (c.toNat - 48)) 0

/-- Unsigned part of a Python float literal: digits with an optional point,
at least one digit overall.  Returns the exact rational value. -/
def parseUnsigned (l : List Char) : Option Rat :=
  let intPart := l.takeWhile Char.isDigit
  let rest := l.dropWhile Char.isDigit
  match rest with
  | [] => if intPart.isEmpty then none else some ((digitsVal intPart : Nat) : Rat)
  | c :: frac =>
    if c = '.' then
      if frac.all Char.isDigit && !(intPart.isEmpty && frac.isEmpty) then
        some ((digitsVal intPart : Rat) + (digitsVal frac : Rat) / ((10 : Rat) ^ frac.length))
      else none
    else none

/-- Whitespace stripped from both ends of a character list, Python
`str.strip()`. -/
def trimChars (l : List Char) : List Char :=
  ((l.dropWhile Char.isWhitespace).reverse.dropWhile Char.isWhitespace).reverse

/-- Model of Python `float(s)` restricted to plain signed decimal literals
(the collaborator grammar the scraped rating strings use): leading and
trailing whitespace stripped, optional sign, digits with an optional decimal
point.  `none` models the `ValueError` raise. -/
def pyFloat (s : String) : Option Rat :=
  match trimChars s.data with
  | [] => none
  | c :: rest =>
    if c = '+' then parseUnsigned rest
    else if c = '-' then (parseUnsigned rest).map Neg.neg
    else parseUnsigned (c :: rest)

/-- ASCII single-quote character, used to reproduce Python exception texts. -/
def squote : Char := Char.ofNat 39

/-- Wrap a string in single quotes the way Python `repr` does in error
messages. -/
def pyQuote (s : String) : String :=
  squote.toString ++ s ++ squote.toString

/-- Message of the `ValueError` raised by Python `float(tok)` on a
non-numeric token. -/
def floatErrMsg (tok : String) : String :=
  "could not convert string to float: " ++ pyQuote tok

/-- Message of the `ValueError` raised by Python `int("")` when the digit
concatenation is empty. -/
def intErrMsg : String :=
  "invalid literal for int() with base 10: " ++ pyQuote ""

/-- Model of line 82 of the source, `float(rating_element.text.split()[0])`:
first whitespace token of the element text parsed as a float.  The error
carries the message of the exception Python raises (`IndexError` when the
text has no token, `ValueError` when the token is not a float). -/
def ratingFromElem (txt : String) : Except String Rat :=
  match pySplit txt with
  | [] => Except.error "list index out of range"
  | tok :: _ =>
    match pyFloat tok with
    | some r => Except.ok r
    | none => Except.error (floatErrMsg tok)

/-- Digit characters of a string, concatenated:
`"".join(filter(str.isdigit, s))` of line 87. -/
def extractDigits (s : String) : String :=
  ⟨s.data.filter Char.isDigit⟩

/-- Model of lines 86-90 of the source,
`int("".join(filter(str.isdigit, review_count_element.text)))`: concatenate
the digit characters and parse them as an integer; Python `int("")` raises
`ValueError`. -/
def reviewCountFromElem (txt : String) : Except String Nat :=
  let ds := (extractDigits txt).data
  if ds.isEmpty then Except.error intErrMsg
  else Except.ok (digitsVal ds)

/-- Substring test on character lists (Python `in` on str). -/
def containsSub (s pat : List Char) : Bool :=
  (List.range (s.length + 1)).any fun i => pat.isPrefixOf (s.drop i)

/-- Lower-casing of a character list, Python `str.lower()`. -/
def lowerChars (l : List Char) : List Char :=
  l.map Char.toLower

/-- Support-contact marker of line 74 of the source. -/
def supportMarker : String := "api-services-support@amazon.com"

/-- The HTML parser is an external collaborator, so a fetched product page
is modelled by its HTTP status, its raw body text, and the texts of the two
elements the code selects: `#acrPopover span.a-icon-alt` (rating) and
`#acrCustomerReviewText` (review count); `none` when `select_one` finds no
element. -/
structure ProductPage where
  status : Nat
  text : String
  ratingElem : Option String
  reviewCountElem : Option String
deriving DecidableEq, Repr

/-- Block-page detection of line 74 of the source: the lowered body text
contains `"captcha"` or the support-contact marker. -/
def blocked (p : ProductPage) : Bool :=
  containsSub (lowerChars p.text.data) "captcha".data
    || containsSub (lowerChars p.text.data) supportMarker.data

/-- Outcome of one HTTP fetch as seen inside a fetcher: a page came back,
the request timed out (`asyncio.TimeoutError`), or some other exception was
raised during fetch or parse, carrying its `str(e)` message. -/
inductive FetchOutcome (π : Type) where
  | ok (page : π)
  | timeout
  | exn (msg : String)
deriving DecidableEq, Repr

/-- Record returned by the product fetcher: the `data` dict of line 61 plus
the optional `rating`, `review_count` and `error` keys. `none` models both a
missing key and Python `None`. -/
structure ProductRecord where
  asin : String
  country_code : String
  url : String
  rating : Option Rat := none
  review_count : Option Nat := none
  error : Option String := none
deriving DecidableEq, Repr

/-- Product-page URL built at line 60 of the source. -/
def productUrl (country_code asin : String) : String :=
  "https://www.amazon." ++ country_code ++ "/dp/" ++ asin ++ "?th=1&psc=1"

/-- The rating / review-count / error fields the product fetcher adds to its
base record, one value per control path. -/
structure PRFields where
  rating : Option Rat := none
  review_count : Option Nat := none
  error : Option String := none
deriving DecidableEq, Repr

/-- Review-count step of lines 84-90: runs after the rating was assigned, so
a parse failure here keeps the already-assigned rating in the returned dict
alongside the error. -/
def withRating (r : Option Rat) (p : ProductPage) : PRFields :=
  match p.reviewCountElem with
  | none => { rating := r }
  | some txt =>
    match reviewCountFromElem txt with
    | Except.error m => { rating := r, error := some m }
    | Except.ok n => { rating := r, review_count := some n }

/-- Field-level behaviour of `scrape_product_data` (lines 64-100): non-200
status gives `HTTP <status>`; a 200 block page gives the CAPTCHA error; then
the rating and review count are parsed, any exception being caught at line 98
and returned as `error = str(e)`; timeouts and task-level exceptions map to
their fixed messages. -/
def productFields (o : FetchOutcome ProductPage) : PRFields :=
  match o with
  | FetchOutcome.timeout => { error := some "Request timed out" }
  | FetchOutcome.exn m => { error := some m }
  | FetchOutcome.ok p =>
    if p.status ≠ 200 then { error := some ("HTTP " ++ toString p.status) }
    else if blocked p then { error := some "CAPTCHA or block page detected" }
    else
      match p.ratingElem with
      | none => withRating none p
      | some txt =>
        match ratingFromElem txt with
        | Except.error m => { error := some m }
        | Except.ok r => withRating (some r) p

/-- Model of `scrape_product_data` (lines 58-100): the returned dict always
carries the asin, country code and url of the `data` base dict; the other
keys are as computed by `productFields` for the fetch outcome. -/
def scrape_product_data (asin country_code : String) (o : FetchOutcome ProductPage) : ProductRecord :=
  let f := productFields o
  { asin := asin, country_code := country_code, url := productUrl country_code asin,
    rating := f.rating, review_count := f.review_count, error := f.error }

/-- One review container (`div[data-hook="review"]`) as the parser
collaborator presents it: the stripped texts of the star-rating, body and
date elements, `none` when `select_one` finds no such element. -/
structure ReviewBox where
  starElem : Option String
  bodyElem : Option String
  dateElem : Option String
deriving DecidableEq, Repr

/-- A fetched reviews page: HTTP status and its review containers in page
order. -/
structure ReviewsPage where
  status : Nat
  boxes : List ReviewBox
deriving DecidableEq, Repr

/-- One parsed review record, the dict appended at lines 136-140. -/
structure ReviewRecord where
  star : Rat
  review : String
  date : String
deriving DecidableEq, Repr

/-- Per-container extraction of lines 129-144: select the three elements
(an absent one raises `AttributeError`), parse the first token of the star
text as a float; any exception makes the `except` of line 141 skip just this
container, so the container yields a record exactly when all three elements
are present and the star token parses. -/
def extractReview (box : ReviewBox) : Option ReviewRecord :=
  match box.starElem, box.bodyElem, box.dateElem with
  | some st, some bodyTxt, some dateTxt =>
    match pySplit st with
    | [] => none
    | tok :: _ =>
      match pyFloat tok with
      | some r => some { star := r, review := bodyTxt, date := dateTxt }
      | none => none
  | _, _, _ => none

/-- Model of `scrape_negative_reviews` (lines 103-154): non-200 status,
timeout and any other top-level exception all return the empty list (lines
123, 151, 154); on a 200 page the containers are extracted independently in
page order, skipping the ones that fail. -/
def scrape_negative_reviews (o : FetchOutcome ReviewsPage) : List ReviewRecord :=
  match o with
  | FetchOutcome.timeout => []
  | FetchOutcome.exn _ => []
  | FetchOutcome.ok p =>
    if p.status ≠ 200 then [] else p.boxes.filterMap extractReview

/-- Outcome of one scheduled task as `asyncio.gather(..., return_exceptions=True)`
delivers it at the fan-in: the value the coroutine returned, or the exception
object that escaped it. -/
inductive TaskOutcome (α : Type) where
  | value (v : α)
  | exn (msg : String)
deriving DecidableEq, Repr

/-- Environment of one identifier at the fan-in: the gather outcome of its
product task and of its reviews task.  A `value` outcome carries the fetch
outcome the corresponding fetcher ran against. -/
structure AsinEnv where
  productOutcome : TaskOutcome (FetchOutcome ProductPage)
  reviewsOutcome : TaskOutcome (FetchOutcome ReviewsPage)
deriving DecidableEq, Repr

/-- A combined result: the product record with the `negative_reviews` and
`negative_review_count` keys appended (lines 192-193). -/
structure CombinedResult where
  product : ProductRecord
  negative_reviews : List ReviewRecord
  negative_review_count : Nat
deriving DecidableEq, Repr

/-- Review list an identifier contributes at the fan-in: a review-side task
exception degrades to an empty list (lines 184-186), otherwise the list the
review fetcher returned is used. -/
def combineReviews (e : AsinEnv) : List ReviewRecord :=
  match e.reviewsOutcome with
  | TaskOutcome.exn _ => []
  | TaskOutcome.value g => scrape_negative_reviews g

/-- Combined record built at lines 192-194: the product record with the
review list and its length attached. -/
def mkCombined (asin country_code : String) (f : FetchOutcome ProductPage) (e : AsinEnv) : CombinedResult :=
  { product := scrape_product_data asin country_code f,
    negative_reviews := combineReviews e,
    negative_review_count := (combineReviews e).length }

/-- Fan-in reconciliation for one identifier (lines 177-194): a product-side
task exception drops the identifier (line 183); a review-side task exception
degrades to an empty review list (line 186); a truthy `error` value on the
product record drops the identifier (line 189), otherwise the review list and
its length are attached.  An empty-string error is falsy in Python, so only a
non-empty error drops the record. -/
def combine (asin country_code : String) (e : AsinEnv) : Option CombinedResult :=
  match e.productOutcome with
  | TaskOutcome.exn _ => none
  | TaskOutcome.value f =>
    match (scrape_product_data asin country_code f).error with
    | some m =>
      if m = "" then some (mkCombined asin country_code f e) else none
    | none => some (mkCombined asin country_code f e)

/-- Model of `process_asins` (lines 158-197): tasks are created two per
identifier in input order and gathered, so the fan-in walks the identifiers
in input order, each paired positionally with its pair of task outcomes, and
keeps the combined records of the identifiers `combine` does not drop. -/
def process_asins (asins : List String) (country_code : String) (envs : List AsinEnv) : List CombinedResult :=
  (asins.zip envs).filterMap fun p => combine p.1 country_code p.2

deriving instance DecidableEq for Except

/-- Fixture product page for the concrete witness batches: a successful,
unblocked page with neither optional element. -/
def pageOk : ProductPage :=
  { status := 200, text := "all good", ratingElem := none, reviewCountElem := none }

/-- Fixture product page answering a server error. -/
def pageErr : ProductPage :=
  { status := 500, text := "Internal Server Error", ratingElem := none, reviewCountElem := none }

/-- Fixture block page: HTTP 200 whose body mentions a captcha. -/
def pageCaptcha : ProductPage :=
  { status := 200, text := "please solve this Captcha",
    ratingElem := some "4 out of 5 stars", reviewCountElem := none }

/-- Fixture page with a rating element but no review-count element. -/
def pageRatingOnly : ProductPage :=
  { status := 200, text := "product page",
    ratingElem := some "4 out of 5 stars", reviewCountElem := none }

/-- Fixture page whose rating element text does not parse as a float. -/
def pageBadRating : ProductPage :=
  { status := 200, text := "product page",
    ratingElem := some "unrated stars", reviewCountElem := none }

/-- Fixture reviews fetch outcome: a successful page with no containers. -/
def reviewsEmptyOutcome : FetchOutcome ReviewsPage :=
  FetchOutcome.ok { status := 200, boxes := [] }

/-- Fixture environment whose product fetch succeeds. -/
def envOk : AsinEnv :=
  { productOutcome := TaskOutcome.value (FetchOutcome.ok pageOk),
    reviewsOutcome := TaskOutcome.value reviewsEmptyOutcome }

/-- Fixture environment whose product fetch answers HTTP 500. -/
def envErr : AsinEnv :=
  { productOutcome := TaskOutcome.value (FetchOutcome.ok pageErr),
    reviewsOutcome := TaskOutcome.value reviewsEmptyOutcome }

/-- Fixture environment whose reviews task escaped with an exception while
the product fetch succeeded. -/
def envRevExn : AsinEnv :=
  { productOutcome := TaskOutcome.value (FetchOutcome.ok pageOk),
    reviewsOutcome := TaskOutcome.exn "boom" }

/-- Fixture environment whose product page has an unparsable rating. -/
def envBadRating : AsinEnv :=
  { productOutcome := TaskOutcome.value (FetchOutcome.ok pageBadRating),
    reviewsOutcome := TaskOutcome.value reviewsEmptyOutcome }

/-- Fixture review container that parses. -/
def boxGood1 : ReviewBox :=
  { starElem := some "1 out of 5 stars", bodyElem := some "terrible", dateElem := some "1 May 2024" }

/-- Fixture review container lacking a star-rating element. -/
def boxNoStar : ReviewBox :=
  { starElem := none, bodyElem := some "meh", dateElem := some "2 May 2024" }

/-- Fixture review container that parses. -/
def boxGood3 : ReviewBox :=
  { starElem := some "2 out of 5 stars", bodyElem := some "bad", dateElem := some "3 May 2024" }

theorem combine_count_eq (a cc : String) (e : AsinEnv) (r : CombinedResult)
    (h : combine a cc e = some r) :
    r.negative_review_count = r.negative_reviews.length := by
  cases hp : e.productOutcome with
  | exn m => simp [combine, hp] at h
  | value f =>
    cases hE : (scrape_product_data a cc f).error with
    | none =>
      simp [combine, hp, hE] at h
      subst h
      rfl
    | some m =>
      by_cases hm : m = "" <;> simp [combine, hp, hE, hm] at h
      subst h
      rfl

theorem combine_asin (a cc : String) (e : AsinEnv) (r : CombinedResult)
    (h : combine a cc e = some r) : r.product.asin = a := by
  cases hp : e.productOutcome with
  | exn m => simp [combine, hp] at h
  | value f =>
    cases hE : (scrape_product_data a cc f).error with
    | none =>
      simp [combine, hp, hE] at h
      subst h
      rfl
    | some m =>
      by_cases hm : m = "" <;> simp [combine, hp, hE, hm] at h
      subst h
      rfl

theorem combine_none_of_error (a cc : String) (e : AsinEnv)
    (f : FetchOutcome ProductPage) (m : String)
    (hp : e.productOutcome = TaskOutcome.value f)
    (hE : (scrape_product_data a cc f).error = some m) (hm : m ≠ "") :
    combine a cc e = none := by
  simp [combine, hp, hE, hm]

/-- C1: every CombinedResult produced by the orchestrator has its
negativeReviewCount field equal to the length of its negativeReviews
sequence. -/
theorem claim1_count_eq_length (asins : List String) (cc : String) (envs : List AsinEnv)
    (r : CombinedResult) (hr : r ∈ process_asins asins cc envs) :
    r.negative_review_count = r.negative_reviews.length := by
  rcases List.mem_filterMap.mp hr with ⟨p, _, hc⟩
  exact combine_count_eq p.1 cc p.2 r hc

/-- Witness for C1 at a concrete one-identifier batch. -/
theorem claim1_count_eq_length_witness :
    (mkCombined "B01" "com.au" (FetchOutcome.ok pageOk) envOk).negative_review_count
      = (mkCombined "B01" "com.au" (FetchOutcome.ok pageOk) envOk).negative_reviews.length :=
  claim1_count_eq_length ["B01"] "com.au" [envOk] _ (by
    have h : process_asins ["B01"] "com.au" [envOk]
        = [mkCombined "B01" "com.au" (FetchOutcome.ok pageOk) envOk] := by decide
    exact h ▸ List.mem_singleton_self _)

/-- C3: a 200 product page whose body contains, case-insensitively, the word
captcha or the support-contact marker yields a record with error
"CAPTCHA or block page detected" and no parsed rating. -/
theorem claim3_captcha_detected (asin cc : String) (p : ProductPage)
    (h200 : p.status = 200)
    (hc : containsSub (lowerChars p.text.data) "captcha".data = true
        ∨ containsSub (lowerChars p.text.data) supportMarker.data = true) :
    (scrape_product_data asin cc (FetchOutcome.ok p)).error
        = some "CAPTCHA or block page detected"
    ∧ (scrape_product_data asin cc (FetchOutcome.ok p)).rating = none := by
  have hb : blocked p = true := by
    rcases hc with h | h <;> simp [blocked, h]
  constructor <;> simp [scrape_product_data, productFields, h200, hb]

/-- Witness for C3 at a concrete captcha page. -/
theorem claim3_captcha_detected_witness :
    (scrape_product_data "B01" "com.au" (FetchOutcome.ok pageCaptcha)).error
        = some "CAPTCHA or block page detected"
    ∧ (scrape_product_data "B01" "com.au" (FetchOutcome.ok pageCaptcha)).rating = none :=
  claim3_captcha_detected "B01" "com.au" pageCaptcha rfl (Or.inl (by decide))

/-- C4: the product fetcher is total at its boundary: every outcome yields a
well-formed record carrying the identifier, locale and url, with error
"HTTP <status>" on non-success status, "Request timed out" on timeout, and
the exception message on any other exception. -/
theorem claim4_total_boundary (asin cc : String) :
    (∀ o : FetchOutcome ProductPage,
        (scrape_product_data asin cc o).asin = asin
        ∧ (scrape_product_data asin cc o).country_code = cc
        ∧ (scrape_product_data asin cc o).url = productUrl cc asin)
    ∧ (∀ p : ProductPage, p.status ≠ 200 →
        (scrape_product_data asin cc (FetchOutcome.ok p)).error
          = some ("HTTP " ++ toString p.status))
    ∧ (scrape_product_data asin cc FetchOutcome.timeout).error = some "Request timed out"
    ∧ (∀ m : String, (scrape_product_data asin cc (FetchOutcome.exn m)).error = some m) := by
  refine ⟨fun o => ⟨rfl, rfl, rfl⟩, fun p hp => ?_, rfl, fun m => rfl⟩
  simp [scrape_product_data, productFields, hp]

/-- Witness for C4 at a concrete 500 page. -/
theorem claim4_total_boundary_witness :
    (scrape_product_data "B01" "com.au" (FetchOutcome.ok pageErr)).error
      = some ("HTTP " ++ toString pageErr.status) :=
  (claim4_total_boundary "B01" "com.au").2.1 pageErr (by decide)

/-- C8: the review fetcher returns an empty sequence on non-success status,
timeout and any other top-level exception, indistinguishable from a
successful page with no negative reviews. -/
theorem claim8_empty_on_failure :
    (∀ p : ReviewsPage, p.status ≠ 200 → scrape_negative_reviews (FetchOutcome.ok p) = [])
    ∧ scrape_negative_reviews FetchOutcome.timeout = []
    ∧ (∀ m : String, scrape_negative_reviews (FetchOutcome.exn m) = [])
    ∧ scrape_negative_reviews (FetchOutcome.ok { status := 200, boxes := [] }) = [] :=
  ⟨fun p hp => by simp [scrape_negative_reviews, hp], rfl, fun m => rfl, rfl⟩

/-- Witness for C8 at a concrete 503 reviews page. -/
theorem claim8_empty_on_failure_witness :
    scrape_negative_reviews (FetchOutcome.ok { status := 503, boxes := [boxGood1] }) = [] :=
  claim8_empty_on_failure.1 { status := 503, boxes := [boxGood1] } (by decide)

theorem asin_map_sublist (asins : List String) (cc : String) (envs : List AsinEnv) :
    ((process_asins asins cc envs).map fun r => r.product.asin).Sublist asins := by
  induction asins generalizing envs with
  | nil => simp [process_asins]
  | cons a as ih =>
    cases envs with
    | nil => simp [process_asins]
    | cons e es =>
      cases hc : combine a cc e with
      | none =>
        simpa [process_asins, List.filterMap_cons, hc] using (ih es).cons a
      | some r =>
        simpa [process_asins, List.filterMap_cons, hc, combine_asin a cc e r hc]
          using (ih es).cons₂ a

theorem filterMap_pair_sublist {α β : Type} (f : α → Option β) (l : List α) :
    ∀ (i j : Nat) (hij : i < j) (hj : j < l.length) (a b : β),
      f (l.get ⟨i, by omega⟩) = some a → f (l.get ⟨j, hj⟩) = some b →
      List.Sublist [a, b] (l.filterMap f) := by
  induction l with
  | nil =>
    intro i j hij hj
    exact absurd hj (by simp)
  | cons x xs ih =>
    intro i j hij hj a b ha hb
    cases j with
    | zero => omega
    | succ j2 =>
      have hj2 : j2 < xs.length := by simpa using hj
      have hb2 : f (xs.get ⟨j2, hj2⟩) = some b := hb
      cases i with
      | zero =>
        have ha2 : f x = some a := ha
        have hbmem : b ∈ xs.filterMap f :=
          List.mem_filterMap.mpr ⟨xs.get ⟨j2, hj2⟩, List.get_mem xs j2 hj2, hb2⟩
        simp only [List.filterMap_cons, ha2]
        exact List.Sublist.cons₂ a (List.singleton_sublist.mpr hbmem)
      | succ i2 =>
        have ha2 : f (xs.get ⟨i2, by omega⟩) = some a := ha
        have hsub := ih i2 j2 (by omega) hj2 a b ha2 hb2
        cases hfx : f x with
        | none => simpa [List.filterMap_cons, hfx] using hsub
        | some c =>
          simp only [List.filterMap_cons, hfx]
          exact hsub.cons c

/-- C2: under the spec's data-model assumption that identifiers are unique
within a batch, an identifier whose product fetch came back with a non-empty
error is absent from the batch results, and every identifier appears in at
most one CombinedResult. -/
theorem claim2_failed_dropped (asins : List String) (cc : String) (envs : List AsinEnv)
    (hnd : asins.Nodup) :
    (∀ (i : Nat) (hi : i < asins.length) (hi2 : i < envs.length)
        (f : FetchOutcome ProductPage) (m : String),
        envs[i].productOutcome = TaskOutcome.value f →
        (scrape_product_data asins[i] cc f).error = some m →
        m ≠ "" →
        ∀ r ∈ process_asins asins cc envs, r.product.asin ≠ asins[i])
    ∧ ((process_asins asins cc envs).map fun r => r.product.asin).Nodup := by
  constructor
  · intro i hi hi2 f m hpo hE hm r hr heq
    rcases List.mem_filterMap.mp hr with ⟨p, hpmem, hc⟩
    rcases List.getElem_of_mem hpmem with ⟨j, hjlt, hj⟩
    have hjz := hjlt
    rw [List.length_zip] at hjz
    have hj1 : j < asins.length := by omega
    have hj2 : j < envs.length := by omega
    have hz : (asins.zip envs)[j] = (asins[j], envs[j]) := by
      simp [List.getElem_zip]
    rw [hz] at hj
    subst hj
    have hasin : r.product.asin = asins[j] := combine_asin _ cc _ r hc
    have hji : j = i := by
      apply hnd.getElem_inj_iff.mp
      rw [← hasin]
      exact heq
    subst hji
    have hnone : combine asins[j] cc envs[j] = none :=
      combine_none_of_error _ cc _ f m hpo hE hm
    rw [hnone] at hc
    exact Option.noConfusion hc
  · exact hnd.sublist (asin_map_sublist asins cc envs)

/-- Witness for C2 at a concrete two-identifier batch where the first
identifier's product fetch answers HTTP 500. -/
theorem claim2_failed_dropped_witness :
    (mkCombined "B02" "com.au" (FetchOutcome.ok pageOk) envOk).product.asin ≠ "B01" := by
  have h := (claim2_failed_dropped ["B01", "B02"] "com.au" [envErr, envOk] (by decide)).1
    0 (by decide) (by decide) (FetchOutcome.ok pageErr) "HTTP 500" (by decide) (by decide)
    (by decide) (mkCombined "B02" "com.au" (FetchOutcome.ok pageOk) envOk)
  apply h
  have he : process_asins ["B01", "B02"] "com.au" [envErr, envOk]
      = [mkCombined "B02" "com.au" (FetchOutcome.ok pageOk) envOk] := by decide
  exact he ▸ List.mem_singleton_self _

/-- C5: the batch output preserves the relative input order of surviving
identifiers and omits failed ones without placeholders: the output's
identifier sequence is a sublist of the input, and the combined records of
two surviving positions appear in input order. -/
theorem claim5_order_preserved (asins : List String) (cc : String) (envs : List AsinEnv) :
    (((process_asins asins cc envs).map fun r => r.product.asin).Sublist asins)
    ∧ (∀ (i j : Nat) (hi : i < asins.length) (hi2 : i < envs.length)
        (hj : j < asins.length) (hj2 : j < envs.length) (hij : i < j)
        (a c : CombinedResult),
        combine asins[i] cc envs[i] = some a →
        combine asins[j] cc envs[j] = some c →
        List.Sublist [a, c] (process_asins asins cc envs)) := by
  refine ⟨asin_map_sublist asins cc envs, ?_⟩
  intro i j hi hi2 hj hj2 hij a c ha hc
  have hjz : j < (asins.zip envs).length := by rw [List.length_zip]; omega
  show List.Sublist [a, c] ((asins.zip envs).filterMap fun p => combine p.1 cc p.2)
  apply filterMap_pair_sublist (fun p => combine p.1 cc p.2) (asins.zip envs) i j hij hjz a c
  · simpa [List.get_eq_getElem, List.getElem_zip] using ha
  · simpa [List.get_eq_getElem, List.getElem_zip] using hc

/-- Witness for C5 at a concrete three-identifier batch whose middle
identifier fails. -/
theorem claim5_order_preserved_witness :
    List.Sublist
      [mkCombined "A1" "com.au" (FetchOutcome.ok pageOk) envOk,
       mkCombined "C1" "com.au" (FetchOutcome.ok pageOk) envOk]
      (process_asins ["A1", "B1", "C1"] "com.au" [envOk, envErr, envOk]) :=
  (claim5_order_preserved ["A1", "B1", "C1"] "com.au" [envOk, envErr, envOk]).2
    0 2 (by decide) (by decide) (by decide) (by decide) (by decide) _ _ (by decide) (by decide)

/-- C6: the fan-in handles exceptions asymmetrically: a product-side task
exception drops the identifier, while a review-side task exception with a
successful product fetch keeps the identifier with an empty review list and
zero count; and a surviving identifier's combined record does appear in the
batch results. -/
theorem claim6_asymmetric_exceptions (cc : String) :
    (∀ (a : String) (e : AsinEnv) (m : String),
        e.productOutcome = TaskOutcome.exn m → combine a cc e = none)
    ∧ (∀ (a : String) (e : AsinEnv) (m : String) (f : FetchOutcome ProductPage),
        e.reviewsOutcome = TaskOutcome.exn m →
        e.productOutcome = TaskOutcome.value f →
        (scrape_product_data a cc f).error = none →
        combine a cc e = some { product := scrape_product_data a cc f,
                                negative_reviews := [], negative_review_count := 0 })
    ∧ (∀ (asins : List String) (envs : List AsinEnv) (i : Nat)
        (hi : i < asins.length) (hi2 : i < envs.length) (r : CombinedResult),
        combine asins[i] cc envs[i] = some r →
        r ∈ process_asins asins cc envs) := by
  refine ⟨?_, ?_, ?_⟩
  · intro a e m hp
    simp [combine, hp]
  · intro a e m f hrev hp hE
    simp [combine, hp, hE, mkCombined, combineReviews, hrev]
  · intro asins envs i hi hi2 r hc
    apply List.mem_filterMap.mpr
    refine ⟨(asins[i], envs[i]), ?_, hc⟩
    have hiz : i < (asins.zip envs).length := by rw [List.length_zip]; omega
    have hz : (asins.zip envs)[i] = (asins[i], envs[i]) := by simp [List.getElem_zip]
    exact hz ▸ List.getElem_mem hiz

/-- Witness for C6: a review-side exception with a successful product fetch
keeps the identifier with an empty review list. -/
theorem claim6_asymmetric_exceptions_witness :
    combine "B01" "com.au" envRevExn
      = some { product := scrape_product_data "B01" "com.au" (FetchOutcome.ok pageOk),
               negative_reviews := [], negative_review_count := 0 } :=
  (claim6_asymmetric_exceptions "com.au").2.1 "B01" envRevExn "boom" (FetchOutcome.ok pageOk)
    rfl rfl (by decide)

theorem extractReview_star_none (box : ReviewBox) (h : box.starElem = none) :
    extractReview box = none := by
  obtain ⟨s, b, d⟩ := box
  have hs : s = none := h
  subst hs
  rfl

/-- C7: a malformed review container (missing star, body or date element, or
an unparsable star token) is skipped on its own, and for a three-container
page whose second container lacks the star element the fetcher returns
exactly the first and third records in page order. -/
theorem claim7_skip_malformed :
    (∀ box : ReviewBox,
        box.starElem = none ∨ box.bodyElem = none ∨ box.dateElem = none →
        extractReview box = none)
    ∧ (∀ (box : ReviewBox) (st tok : String) (rest : List String),
        box.starElem = some st → pySplit st = tok :: rest → pyFloat tok = none →
        extractReview box = none)
    ∧ (∀ (b1 b2 b3 : ReviewBox) (r1 r3 : ReviewRecord),
        extractReview b1 = some r1 → b2.starElem = none → extractReview b3 = some r3 →
        scrape_negative_reviews
            (FetchOutcome.ok { status := 200, boxes := [b1, b2, b3] }) = [r1, r3]) := by
  refine ⟨?_, ?_, ?_⟩
  · intro box h
    obtain ⟨s, b, d⟩ := box
    rcases h with h | h | h
    · have hs : s = none := h
      subst hs
      rfl
    · have hb : b = none := h
      subst hb
      cases s <;> rfl
    · have hd : d = none := h
      subst hd
      cases s <;> (try rfl) <;> cases b <;> rfl
  · intro box st tok rest hstar hsplit hfl
    obtain ⟨s, b, d⟩ := box
    have hs : s = some st := hstar
    subst hs
    cases b with
    | none => rfl
    | some bv =>
      cases d with
      | none => rfl
      | some dv => simp [extractReview, hsplit, hfl]
  · intro b1 b2 b3 r1 r3 h1 hb2 h3
    have h2 := extractReview_star_none b2 hb2
    simp [scrape_negative_reviews, List.filterMap_cons, h1, h2, h3]

/-- Witness for C7 at a concrete three-container page. -/
theorem claim7_skip_malformed_witness :
    scrape_negative_reviews
        (FetchOutcome.ok { status := 200, boxes := [boxGood1, boxNoStar, boxGood3] })
      = [ { star := ((1 : Nat) : Rat), review := "terrible", date := "1 May 2024" },
          { star := ((2 : Nat) : Rat), review := "bad", date := "3 May 2024" } ] :=
  claim7_skip_malformed.2.2 boxGood1 boxNoStar boxGood3 _ _ (by decide) rfl (by decide)

/-- C9: on a successful, unblocked page the rating and review-count fields
are independently optional: a missing review-count element yields a none
review count with no error while a present rating element still populates
the rating, and symmetrically. -/
theorem claim9_optional_fields (asin cc : String) (p : ProductPage)
    (h200 : p.status = 200) (hnb : blocked p = false) :
    (∀ (txt : String) (r : Rat),
        p.reviewCountElem = none → p.ratingElem = some txt →
        ratingFromElem txt = Except.ok r →
        (scrape_product_data asin cc (FetchOutcome.ok p)).review_count = none
        ∧ (scrape_product_data asin cc (FetchOutcome.ok p)).rating = some r
        ∧ (scrape_product_data asin cc (FetchOutcome.ok p)).error = none)
    ∧ (∀ (txt : String) (n : Nat),
        p.ratingElem = none → p.reviewCountElem = some txt →
        reviewCountFromElem txt = Except.ok n →
        (scrape_product_data asin cc (FetchOutcome.ok p)).rating = none
        ∧ (scrape_product_data asin cc (FetchOutcome.ok p)).review_count = some n
        ∧ (scrape_product_data asin cc (FetchOutcome.ok p)).error = none) := by
  constructor
  · intro txt r hrc hre hok
    refine ⟨?_, ?_, ?_⟩ <;>
      simp [scrape_product_data, productFields, h200, hnb, hre, hok, withRating, hrc]
  · intro txt n hre hrc hok
    refine ⟨?_, ?_, ?_⟩ <;>
      simp [scrape_product_data, productFields, h200, hnb, hre, withRating, hrc, hok]

/-- Witness for C9 at a concrete page carrying only a rating element. -/
theorem claim9_optional_fields_witness :
    (scrape_product_data "B01" "com.au" (FetchOutcome.ok pageRatingOnly)).review_count = none
    ∧ (scrape_product_data "B01" "com.au" (FetchOutcome.ok pageRatingOnly)).rating
        = some ((4 : Nat) : Rat)
    ∧ (scrape_product_data "B01" "com.au" (FetchOutcome.ok pageRatingOnly)).error = none :=
  (claim9_optional_fields "B01" "com.au" pageRatingOnly rfl (by decide)).1
    "4 out of 5 stars" ((4 : Nat) : Rat) rfl rfl (by decide)

theorem append_ne_empty_left (s t : String) (h : s.data ≠ []) : s ++ t ≠ "" := by
  intro hc
  have hd : s.data ++ t.data = [] := congrArg String.data hc
  exact h (List.append_eq_nil.mp hd).1

theorem floatErrMsg_ne_empty (tok : String) : floatErrMsg tok ≠ "" :=
  append_ne_empty_left _ _ (by decide)

theorem intErrMsg_ne_empty : intErrMsg ≠ "" := by decide

/-- C10: a present rating element whose first token is not a float, or a
present review-count element with no digit characters, makes the product
fetcher return the parse exception's message as the error, and the fan-in
then drops the identifier. -/
theorem claim10_parse_error_drops (asin cc : String) (p : ProductPage) (e : AsinEnv)
    (h200 : p.status = 200) (hnb : blocked p = false)
    (hpo : e.productOutcome = TaskOutcome.value (FetchOutcome.ok p)) :
    (∀ (txt tok : String) (rest : List String),
        p.ratingElem = some txt → pySplit txt = tok :: rest → pyFloat tok = none →
        (scrape_product_data asin cc (FetchOutcome.ok p)).error = some (floatErrMsg tok)
        ∧ combine asin cc e = none)
    ∧ (∀ txt : String,
        p.reviewCountElem = some txt →
        (p.ratingElem = none
          ∨ ∃ (rt : String) (r : Rat), p.ratingElem = some rt ∧ ratingFromElem rt = Except.ok r) →
        extractDigits txt = "" →
        (scrape_product_data asin cc (FetchOutcome.ok p)).error = some intErrMsg
        ∧ combine asin cc e = none) := by
  constructor
  · intro txt tok rest hre hsplit hfl
    have hE : (scrape_product_data asin cc (FetchOutcome.ok p)).error
        = some (floatErrMsg tok) := by
      simp [scrape_product_data, productFields, h200, hnb, hre, ratingFromElem, hsplit, hfl]
    exact ⟨hE, combine_none_of_error _ cc _ _ _ hpo hE (floatErrMsg_ne_empty tok)⟩
  · intro txt hrc hra hdig
    have hcnt : reviewCountFromElem txt = Except.error intErrMsg := by
      simp [reviewCountFromElem, hdig]
    have hE : (scrape_product_data asin cc (FetchOutcome.ok p)).error = some intErrMsg := by
      rcases hra with h | ⟨rt, r, hrt, hok⟩
      · simp [scrape_product_data, productFields, h200, hnb, h, withRating, hrc, hcnt]
      · simp [scrape_product_data, productFields, h200, hnb, hrt, hok, withRating, hrc, hcnt]
    exact ⟨hE, combine_none_of_error _ cc _ _ _ hpo hE intErrMsg_ne_empty⟩

/-- Witness for C10 at a concrete page with an unparsable rating token. -/
theorem claim10_parse_error_drops_witness :
    (scrape_product_data "B01" "com.au" (FetchOutcome.ok pageBadRating)).error
        = some (floatErrMsg "unrated")
    ∧ combine "B01" "com.au" envBadRating = none :=
  (claim10_parse_error_drops "B01" "com.au" pageBadRating envBadRating rfl (by decide) rfl).1
    "unrated stars" "unrated" ["stars"] rfl (by decide) (by decide)
